import Mathlib

/-!
Verification development for the structured-output chat application
(`structured-output/structured_chat_app.py`).

The embedding models:
  * the intent classifier `detect_intent` (keyword substring matching over
    the lowercased prompt);
  * the pydantic result schemas (`TaskList`, `Recipe`, `WeatherForecast`,
    `ProductReview`) with enum-valued fields modelled as strings carrying
    the enum value, as `model_dump` renders them;
  * the message store (`Database.add_messages` / `Database.get_messages`):
    an ordered list of opaque serialized records, each either parseable
    into a list of `ModelMessage`s or corrupt (deserialization raises);
  * the HTTP handlers `get_chat` (newline-delimited JSON lines) and the
    `stream_messages` generator of `post_chat`, with the external
    pydantic-ai agents supplied as an environment record `Generators`
    whose calls either return typed data plus the serialized new turns,
    or fail with an exception message.

Timestamps (`datetime.now`) are supplied by the caller as opaque strings,
one per emission point.  Machine-level concerns (sqlite, asyncio executor
serialization, HTTP transport) are outside the functional model.
-/

namespace ChatApp

/-! ### Intent classifier (`detect_intent`) -/

/-- Python `word in prompt_lower`: substring containment, modelled as list
infix over the character sequences. -/
def substrIn (w s : String) : Bool := decide (w.data <:+: s.data)

/-- Python `str.lower()` restricted to per-character lowering, which is
what it does on the ASCII keyword alphabet the classifier cares about. -/
def lower (s : String) : String := String.mk (s.data.map Char.toLower)

/-- Keyword group for the `tasks` intent (source line 259). -/
def task_keywords : List String := ["task", "todo", "plan", "schedule", "organize"]

/-- Keyword group for the `recipe` intent (source line 261). -/
def recipe_keywords : List String := ["recipe", "cook", "ingredient", "dish", "meal"]

/-- Keyword group for the `weather` intent (source line 263). -/
def weather_keywords : List String := ["weather", "forecast", "temperature", "rain", "sunny"]

/-- Keyword group for the `review` intent (source line 265). -/
def review_keywords : List String := ["review", "product", "rating", "recommend", "opinion"]

/-- Whether any keyword of the group occurs in the lowercased prompt:
Python `any(word in prompt_lower for word in [...])`. -/
def matchesGroup (prompt : String) (ws : List String) : Bool :=
  ws.any (fun word => substrIn word (lower prompt))

/-- `detect_intent(prompt)`: simple intent detection based on keywords
(source lines 255-268). -/
def detect_intent (prompt : String) : String :=
  if matchesGroup prompt task_keywords then "tasks"
  else if matchesGroup prompt recipe_keywords then "recipe"
  else if matchesGroup prompt weather_keywords then "weather"
  else if matchesGroup prompt review_keywords then "review"
  else "general"

/-- The keyword groups paired with their intent labels, in the priority
order the spec states: tasks, recipe, weather, review. -/
def intentGroups : List (String × List String) :=
  [("tasks", task_keywords), ("recipe", recipe_keywords),
   ("weather", weather_keywords), ("review", review_keywords)]

/-- Classifier as the spec words it: evaluate the keyword groups in fixed
priority order, return the first group with at least one matching
substring anywhere in the lowercased prompt, else general. -/
def classify_spec (prompt : String) : String :=
  match intentGroups.find? (fun g => matchesGroup prompt g.2) with
  | some g => g.1
  | none => "general"

/-! ### Structured output schemas (pydantic models, source lines 44-104)

Enum- and Literal-valued fields (`TaskPriority`, `difficulty`,
`WeatherCondition`) are modelled as the strings `model_dump` produces for
them; the schema constraints on those values are not used by any claim. -/

structure Task where
  title : String
  description : String
  priority : String
  estimated_time : String
  category : String
  deriving DecidableEq, Repr

structure TaskList where
  tasks : List Task
  total_tasks : Int
  summary : String
  deriving DecidableEq, Repr

structure RecipeIngredient where
  name : String
  amount : String
  notes : Option String
  deriving DecidableEq, Repr

structure Recipe where
  name : String
  description : String
  prep_time : String
  cook_time : String
  servings : Int
  difficulty : String
  ingredients : List RecipeIngredient
  instructions : List String
  deriving DecidableEq, Repr

structure WeatherForecast where
  location : String
  current_condition : String
  temperature : String
  humidity : String
  wind_speed : String
  forecast_summary : String
  recommendations : List String
  deriving DecidableEq, Repr

structure ProductReview where
  product_name : String
  rating : Int
  pros : List String
  cons : List String
  summary : String
  recommendation : Bool
  deriving DecidableEq, Repr

/-- The `model_dump()` payload placed in `structured_data`: one variant per
schema-bound agent.  Every dump is a dict with at least three keys, so it
is never falsy in Python; `Option` absence models `None` exactly. -/
inductive StructuredData where
  | tasks (t : TaskList)
  | recipe (r : Recipe)
  | weather (w : WeatherForecast)
  | review (p : ProductReview)
  deriving DecidableEq, Repr

/-! ### Messages and the browser-facing `ChatMessage` shape -/

/-- One part of a pydantic-ai message.  `userPrompt` is `UserPromptPart`
(string content plus its timestamp), `text` is `TextPart`; `other` stands
for any other part kind (system prompts, tool calls, tool returns), which
`to_chat_message` rejects. -/
inductive MsgPart where
  | userPrompt (content : String) (timestamp : String)
  | text (content : String)
  | other
  deriving DecidableEq, Repr

/-- A pydantic-ai `ModelMessage`: a `ModelRequest` (list of parts) or a
`ModelResponse` (list of parts plus the response timestamp). -/
inductive ModelMessage where
  | request (parts : List MsgPart)
  | response (parts : List MsgPart) (timestamp : String)
  deriving DecidableEq, Repr

/-- `ChatMessage`: format of messages sent to the browser (source lines
224-230). -/
structure ChatMessage where
  role : String
  timestamp : String
  content : String
  message_type : String
  structured_data : Option StructuredData
  deriving DecidableEq, Repr

/-- `to_chat_message(m)` (source lines 232-253): reads `m.parts[0]`; a
user-prompt-first request maps to a user turn, a text-first response maps
to a model turn, anything else raises `UnexpectedModelBehavior` (and an
empty parts list raises an index error) — both modelled as `.error`. -/
def to_chat_message : ModelMessage → Except String ChatMessage
  | .request parts =>
    match parts.head? with
    | some (.userPrompt content ts) =>
      .ok ⟨"user", ts, content, "text", none⟩
    | _ => .error "Unexpected message type for chat app"
  | .response parts ts =>
    match parts.head? with
    | some (.text content) =>
      .ok ⟨"model", ts, content, "text", none⟩
    | _ => .error "Unexpected message type for chat app"

/-! ### The message store (`Database`, source lines 362-428) -/

/-- One row of the `messages` table: the bytes of one serialized exchange.
A row either deserializes (`ModelMessagesTypeAdapter.validate_json`
succeeds, yielding the encoded turns) or is corrupt (validation raises
with some message). -/
inductive Blob where
  | ok (msgs : List ModelMessage)
  | corrupt (msg : String)
  deriving DecidableEq, Repr

/-- `validate_json` on one stored row. -/
def parseRecord : Blob → Except String (List ModelMessage)
  | .ok msgs => .ok msgs
  | .corrupt msg => .error msg

/-- Database state: the rows of the `messages` table in insertion order
(recovered by `order by id` over the monotonic integer primary key),
plus an environment flag making the next `INSERT` raise, so that store
write failures are representable. -/
structure Db where
  rows : List Blob
  write_fails : Option String
  deriving DecidableEq, Repr

/-- `Database.add_messages(messages)` (source lines 394-400): one `INSERT`
appending a single row; raises when the underlying store write fails. -/
def add_messages (db : Db) (b : Blob) : Except String Db :=
  match db.write_fails with
  | some e => .error e
  | none => .ok { db with rows := db.rows ++ [b] }

/-- The row loop of `Database.get_messages` (source lines 407-410):
deserialize every row in order and flatten; the first row whose
validation raises aborts the whole read. -/
def readRows : List Blob → Except String (List ModelMessage)
  | [] => .ok []
  | b :: rest =>
    match parseRecord b with
    | .error e => .error e
    | .ok msgs =>
      match readRows rest with
      | .error e => .error e
      | .ok more => .ok (msgs ++ more)

/-- `Database.get_messages()` (source lines 402-410). -/
def get_messages (db : Db) : Except String (List ModelMessage) :=
  readRows db.rows

/-! ### The external agents (environment) and the streaming session -/

/-- Outcome of one successful `agent.run(...)`: the validated `result.data`
of the agent's result type, plus `result.new_messages_json()` decoded —
the new turns of this run, stored as one row and parseable back by
construction of the serializer round trip. -/
structure RunResult (α : Type) where
  data : α
  new_messages : List ModelMessage
  deriving DecidableEq, Repr

/-- The five module-level agents (source lines 107-112), as an opaque
environment: each call, given the templated prompt and the message
history, either returns a `RunResult` of its schema or raises. -/
structure Generators where
  task_agent : String → List ModelMessage → Except String (RunResult TaskList)
  recipe_agent : String → List ModelMessage → Except String (RunResult Recipe)
  weather_agent : String → List ModelMessage → Except String (RunResult WeatherForecast)
  review_agent : String → List ModelMessage → Except String (RunResult ProductReview)
  general_agent : String → List ModelMessage → Except String (RunResult String)

/-- The intent dispatch inside the `try` block of `stream_messages`
(source lines 294-330): select the agent by the intent string, wrap the
prompt in the intent template, and on success return the summary
`content`, the `structured_data` payload, and the run's new messages. -/
def run_intent (gens : Generators) (intent prompt : String)
    (messages : List ModelMessage) :
    Except String (String × Option StructuredData × List ModelMessage) :=
  if intent = "tasks" then
    (gens.task_agent ("Create a task list based on this request: " ++ prompt)
        messages).map
      (fun r =>
        ("I've created a structured task list for you with " ++
            toString r.data.total_tasks ++ " tasks.",
         some (.tasks r.data), r.new_messages))
  else if intent = "recipe" then
    (gens.recipe_agent ("Provide a recipe based on this request: " ++ prompt)
        messages).map
      (fun r =>
        ("Here's a " ++ r.data.difficulty ++ " recipe for " ++ r.data.name ++
            " (serves " ++ toString r.data.servings ++ ").",
         some (.recipe r.data), r.new_messages))
  else if intent = "weather" then
    (gens.weather_agent ("Provide a weather forecast based on this request: " ++
        prompt ++ ". Note: This is a demo - provide realistic but fictional weather data.")
        messages).map
      (fun r =>
        ("Here's the weather forecast for " ++ r.data.location ++ ".",
         some (.weather r.data), r.new_messages))
  else if intent = "review" then
    (gens.review_agent ("Provide a product review based on this request: " ++ prompt)
        messages).map
      (fun r =>
        ("Here's a structured review for " ++ r.data.product_name ++ " (" ++
            toString r.data.rating ++ "/5 stars).",
         some (.review r.data), r.new_messages))
  else
    (gens.general_agent prompt messages).map
      (fun r => (r.data, none, r.new_messages))

/-- Result of running the `stream_messages` generator of `post_chat` to
completion: the JSON lines yielded (as `ChatMessage` values, in yield
order), the database state afterwards, and — when an exception escaped
the generator, killing the stream — its message. -/
structure StreamOut where
  events : List ChatMessage
  db : Db
  raised : Option String
  deriving DecidableEq, Repr

/-- The model-turn error message of the `except` handler (source lines
348-354). -/
def errorTurn (ts msg : String) : ChatMessage :=
  ⟨"model", ts, "Sorry, I encountered an error: " ++ msg, "text", none⟩

/-- `stream_messages` (source lines 274-355).  Flow: yield the user echo;
detect the intent; load the history (outside the `try`, so a read failure
propagates and kills the stream); run the selected agent; on success
build the response turn, with `message_type` computed from the truthiness
of `structured_data` (every `model_dump` dict is non-empty, so truthiness
coincides with non-`None`), yield it, then append the run's new messages
as one row; any exception inside the `try` — agent failure or store write
failure — is caught and yielded as an in-band error turn.  `ts_user`,
`ts_model`, `ts_err` stand for the three `datetime.now` calls. -/
def stream_messages (gens : Generators) (ts_user ts_model ts_err : String)
    (prompt : String) (db : Db) : StreamOut :=
  let userMsg : ChatMessage := ⟨"user", ts_user, prompt, "text", none⟩
  let intent := detect_intent prompt
  match get_messages db with
  | .error e => ⟨[userMsg], db, some e⟩
  | .ok messages =>
    match run_intent gens intent prompt messages with
    | .error e => ⟨[userMsg, errorTurn ts_err e], db, none⟩
    | .ok (content, structured_data, new_messages) =>
      let responseMsg : ChatMessage :=
        ⟨"model", ts_model, content,
         match structured_data with
         | some _ => "structured"
         | none => "text",
         structured_data⟩
      match add_messages db (Blob.ok new_messages) with
      | .error e => ⟨[userMsg, responseMsg, errorTurn ts_err e], db, none⟩
      | .ok db' => ⟨[userMsg, responseMsg], db', none⟩

/-! ### `GET /chat/` and the JSON line shape -/

/-- Minimal JSON value model for the serialized line objects. -/
inductive Json where
  | str (s : String)
  | num (n : Int)
  | bool (b : Bool)
  | null
  | arr (xs : List Json)
  | obj (fields : List (String × Json))

/-- Top-level key list of a JSON object, in serialization order (Python
dicts keep insertion order and `json.dumps` serializes in that order). -/
def Json.topKeys : Json → List String
  | .obj fields => fields.map Prod.fst
  | _ => []

def taskJson (t : Task) : Json :=
  .obj [("title", .str t.title), ("description", .str t.description),
        ("priority", .str t.priority), ("estimated_time", .str t.estimated_time),
        ("category", .str t.category)]

def taskListJson (tl : TaskList) : Json :=
  .obj [("tasks", .arr (tl.tasks.map taskJson)),
        ("total_tasks", .num tl.total_tasks), ("summary", .str tl.summary)]

def ingredientJson (i : RecipeIngredient) : Json :=
  .obj [("name", .str i.name), ("amount", .str i.amount),
        ("notes", match i.notes with | some s => .str s | none => .null)]

def recipeJson (r : Recipe) : Json :=
  .obj [("name", .str r.name), ("description", .str r.description),
        ("prep_time", .str r.prep_time), ("cook_time", .str r.cook_time),
        ("servings", .num r.servings), ("difficulty", .str r.difficulty),
        ("ingredients", .arr (r.ingredients.map ingredientJson)),
        ("instructions", .arr (r.instructions.map Json.str))]

def weatherJson (w : WeatherForecast) : Json :=
  .obj [("location", .str w.location), ("current_condition", .str w.current_condition),
        ("temperature", .str w.temperature), ("humidity", .str w.humidity),
        ("wind_speed", .str w.wind_speed), ("forecast_summary", .str w.forecast_summary),
        ("recommendations", .arr (w.recommendations.map Json.str))]

def reviewJson (p : ProductReview) : Json :=
  .obj [("product_name", .str p.product_name), ("rating", .num p.rating),
        ("pros", .arr (p.pros.map Json.str)), ("cons", .arr (p.cons.map Json.str)),
        ("summary", .str p.summary), ("recommendation", .bool p.recommendation)]

def structuredJson : StructuredData → Json
  | .tasks t => taskListJson t
  | .recipe r => recipeJson r
  | .weather w => weatherJson w
  | .review p => reviewJson p

/-- `json.dumps` of one `ChatMessage` dict, in the field order of the
`ChatMessage` TypedDict (source lines 224-230). -/
def chatMessageJson (m : ChatMessage) : Json :=
  .obj [("role", .str m.role), ("timestamp", .str m.timestamp),
        ("content", .str m.content), ("message_type", .str m.message_type),
        ("structured_data",
         match m.structured_data with
         | some d => structuredJson d
         | none => .null)]

/-- The field names of the ChatTurn JSON shape, in order. -/
def chatTurnFields : List String :=
  ["role", "timestamp", "content", "message_type", "structured_data"]

/-- The serialization loop of `get_chat`: one `json.dumps(to_chat_message(m))`
line per message, in order; the first conversion failure raises and aborts
the whole response. -/
def renderLines : List ModelMessage → Except String (List Json)
  | [] => .ok []
  | m :: rest =>
    match to_chat_message m with
    | .error e => .error e
    | .ok cm =>
      match renderLines rest with
      | .error e => .error e
      | .ok ls => .ok (chatMessageJson cm :: ls)

/-- `get_chat` (source lines 216-222): read all messages, convert each to
a `ChatMessage` and serialize it; the response body is these lines joined
by a newline.  A read failure or a conversion failure raises out of the
handler (an HTTP error response, no lines).  The result models the list
of emitted JSON lines. -/
def get_chat (db : Db) : Except String (List Json) :=
  match get_messages db with
  | .error e => .error e
  | .ok msgs => renderLines msgs

/-! ### Concrete environments used by the witnesses -/

/-- A generators environment in which every agent call raises. -/
def gensFail : Generators :=
  ⟨fun _ _ => .error "boom", fun _ _ => .error "boom", fun _ _ => .error "boom",
   fun _ _ => .error "boom", fun _ _ => .error "boom"⟩

def parisWeather : WeatherForecast :=
  ⟨"Paris", "sunny", "21C", "40 percent", "10 km per hour", "Clear and mild",
   ["bring a light jacket"]⟩

def sampleUserTurn : ModelMessage :=
  .request [.userPrompt "What is the weather in Paris" "t0"]

def sampleModelTurn : ModelMessage :=
  .response [.text "Here is the forecast"] "t1"

def parisRun : RunResult WeatherForecast :=
  ⟨parisWeather, [sampleUserTurn, sampleModelTurn]⟩

/-- A generators environment whose weather agent succeeds with
`parisRun`; the other agents are never reached in the witnesses. -/
def gensWeather : Generators :=
  ⟨fun _ _ => .error "unused", fun _ _ => .error "unused", fun _ _ => .ok parisRun,
   fun _ _ => .error "unused", fun _ _ => .error "unused"⟩

/-- A stored turn that `to_chat_message` accepts: a request whose first
part is a user prompt, or a response whose first part is text. -/
def wellShaped : ModelMessage → Bool
  | .request parts =>
    match parts.head? with
    | some (.userPrompt _ _) => true
    | _ => false
  | .response parts _ =>
    match parts.head? with
    | some (.text _) => true
    | _ => false

/-- Whether a stored turn is a request containing a user prompt part. -/
def isUserTurn : ModelMessage → Bool
  | .request parts =>
    parts.any (fun p => match p with | .userPrompt _ _ => true | _ => false)
  | .response _ _ => false

/-- Whether a stored turn is a model response. -/
def isModelTurn : ModelMessage → Bool
  | .request _ => false
  | .response _ _ => true

/-- A serialized exchange covering the whole request/response pair: it
contains the user prompt turn and the model reply turn. -/
def coversExchange (nm : List ModelMessage) : Prop :=
  (∃ m ∈ nm, isUserTurn m = true) ∧ (∃ m ∈ nm, isModelTurn m = true)

/-! ### Supporting lemmas -/

theorem detect_intent_eq_classify_spec (p : String) :
    detect_intent p = classify_spec p := by
  unfold detect_intent classify_spec intentGroups List.find?
  by_cases h1 : matchesGroup p task_keywords <;>
    by_cases h2 : matchesGroup p recipe_keywords <;>
      by_cases h3 : matchesGroup p weather_keywords <;>
        by_cases h4 : matchesGroup p review_keywords <;>
          simp [h1, h2, h3, h4]

/-- Every keyword of every group is a nonempty all-lowercase word with no
whitespace character in it. -/
theorem keywords_not_whitespace :
    ∀ w ∈ task_keywords ++ recipe_keywords ++ weather_keywords ++ review_keywords,
      w.data.all (fun c => !c.isWhitespace) = true ∧ w.data ≠ [] := by
  decide

theorem toLower_of_whitespace (c : Char) (h : c.isWhitespace = true) :
    c.toLower = c := by
  have h' : ((c = ' ' ∨ c = '\t') ∨ c = '\x0d') ∨ c = '\n' := by
    simpa [Char.isWhitespace, Bool.or_eq_true, decide_eq_true_iff] using h
  rcases h' with ((h' | h') | h') | h' <;> subst h' <;> decide

/-- A whitespace-only prompt matches no keyword group. -/
theorem matchesGroup_ws_false (p : String) (hws : ∀ c ∈ p.data, c.isWhitespace = true)
    (ws : List String)
    (hsub : ws ⊆ task_keywords ++ recipe_keywords ++ weather_keywords ++ review_keywords) :
    matchesGroup p ws = false := by
  rw [Bool.eq_false_iff]
  intro hmatch
  obtain ⟨w, hw, hin⟩ := List.any_eq_true.mp hmatch
  have hinf : w.data <:+: (lower p).data := of_decide_eq_true hin
  obtain ⟨hall, hne⟩ := keywords_not_whitespace w (hsub hw)
  obtain ⟨c, hc⟩ := List.exists_mem_of_ne_nil _ hne
  have hcl : c ∈ (lower p).data := hinf.subset hc
  have hcw : c.isWhitespace = true := by
    simp only [lower, String.data] at hcl
    obtain ⟨c0, hc0, rfl⟩ := List.mem_map.mp hcl
    have h0 : c0.isWhitespace = true := hws c0 hc0
    rwa [toLower_of_whitespace c0 h0]
  have := List.all_eq_true.mp hall c hc
  simp [hcw] at this

theorem data_append (s t : String) : (s ++ t).data = s.data ++ t.data := by
  cases s; cases t; rfl

theorem data_ne_nil_append (s t : String) (h : s.data ≠ []) : (s ++ t).data ≠ [] := by
  rw [data_append]
  simp [h]

theorem ne_empty_of_data_ne_nil (s : String) (h : s.data ≠ []) : s ≠ "" := by
  intro he
  exact h (by rw [he])

/-- The stream when the history read raises: the echo was already
yielded, the exception escapes the generator and kills the stream. -/
theorem stream_messages_eq_raise (gens : Generators) (t1 t2 t3 prompt : String)
    (db : Db) (e : String) (h : get_messages db = .error e) :
    stream_messages gens t1 t2 t3 prompt db =
      ⟨[⟨"user", t1, prompt, "text", none⟩], db, some e⟩ := by
  unfold stream_messages
  rw [h]

/-- The stream when the selected agent call raises: echo, then the
in-band error turn; the database is untouched. -/
theorem stream_messages_eq_fail (gens : Generators) (t1 t2 t3 prompt : String)
    (db : Db) (msgs : List ModelMessage) (e : String)
    (h1 : get_messages db = .ok msgs)
    (h2 : run_intent gens (detect_intent prompt) prompt msgs = .error e) :
    stream_messages gens t1 t2 t3 prompt db =
      ⟨[⟨"user", t1, prompt, "text", none⟩, errorTurn t3 e], db, none⟩ := by
  unfold stream_messages
  rw [h1]
  dsimp only
  rw [h2]

/-- The stream when the agent call succeeds but the store write raises:
echo, response turn, then the in-band error turn; no row is appended. -/
theorem stream_messages_eq_write_fail (gens : Generators) (t1 t2 t3 prompt : String)
    (db : Db) (msgs : List ModelMessage) (content : String)
    (sd : Option StructuredData) (nm : List ModelMessage) (e : String)
    (h1 : get_messages db = .ok msgs)
    (h2 : run_intent gens (detect_intent prompt) prompt msgs = .ok (content, sd, nm))
    (h3 : db.write_fails = some e) :
    stream_messages gens t1 t2 t3 prompt db =
      ⟨[⟨"user", t1, prompt, "text", none⟩,
        ⟨"model", t2, content,
         match sd with | some _ => "structured" | none => "text", sd⟩,
        errorTurn t3 e], db, none⟩ := by
  unfold stream_messages
  rw [h1]
  dsimp only
  simp only [h2, add_messages, h3]
  cases sd <;> rfl

/-- The stream when both the agent call and the store write succeed:
echo, response turn, and exactly one appended row. -/
theorem stream_messages_eq_ok (gens : Generators) (t1 t2 t3 prompt : String)
    (db : Db) (msgs : List ModelMessage) (content : String)
    (sd : Option StructuredData) (nm : List ModelMessage)
    (h1 : get_messages db = .ok msgs)
    (h2 : run_intent gens (detect_intent prompt) prompt msgs = .ok (content, sd, nm))
    (h3 : db.write_fails = none) :
    stream_messages gens t1 t2 t3 prompt db =
      ⟨[⟨"user", t1, prompt, "text", none⟩,
        ⟨"model", t2, content,
         match sd with | some _ => "structured" | none => "text", sd⟩],
       { db with rows := db.rows ++ [Blob.ok nm] }, none⟩ := by
  unfold stream_messages
  rw [h1]
  dsimp only
  simp only [h2, add_messages, h3]
  cases sd <;> rfl

/-- Reading a log extended by one parseable row yields the old turns
followed by the turns of the new row. -/
theorem readRows_append_single (l : List Blob) (b : Blob)
    (prev appended : List ModelMessage)
    (h1 : readRows l = .ok prev) (h2 : parseRecord b = .ok appended) :
    readRows (l ++ [b]) = .ok (prev ++ appended) := by
  induction l generalizing prev with
  | nil =>
    simp only [readRows] at h1
    cases h1
    simp [readRows, h2]
  | cons hd tl ih =>
    simp only [readRows] at h1 ⊢
    cases hp : parseRecord hd with
    | error e => rw [hp] at h1; exact absurd h1 (by simp)
    | ok msgs =>
      rw [hp] at h1
      cases ht : readRows tl with
      | error e => rw [ht] at h1; exact absurd h1 (by simp)
      | ok more =>
        rw [ht] at h1
        cases h1
        rw [List.append_eq, ih more ht]
        simp [List.append_assoc]

theorem to_chat_message_of_wellShaped (m : ModelMessage)
    (h : wellShaped m = true) : ∃ cm, to_chat_message m = .ok cm := by
  cases m with
  | request parts =>
    simp only [wellShaped] at h
    cases hp : parts.head? with
    | none => rw [hp] at h; exact absurd h (by simp)
    | some part =>
      cases part with
      | userPrompt c ts =>
        exact ⟨⟨"user", ts, c, "text", none⟩, by simp [to_chat_message, hp]⟩
      | text c => rw [hp] at h; exact absurd h (by simp)
      | other => rw [hp] at h; exact absurd h (by simp)
  | response parts ts =>
    simp only [wellShaped] at h
    cases hp : parts.head? with
    | none => rw [hp] at h; exact absurd h (by simp)
    | some part =>
      cases part with
      | userPrompt c pts => rw [hp] at h; exact absurd h (by simp)
      | text c =>
        exact ⟨⟨"model", ts, c, "text", none⟩, by simp [to_chat_message, hp]⟩
      | other => rw [hp] at h; exact absurd h (by simp)

theorem topKeys_chatMessageJson (m : ChatMessage) :
    (chatMessageJson m).topKeys = chatTurnFields := rfl

/-- Converting a list of well-shaped turns to JSON lines succeeds, with
one line per turn, each line an object with exactly the ChatTurn fields. -/
theorem renderLines_wellShaped (msgs : List ModelMessage)
    (h : ∀ m ∈ msgs, wellShaped m = true) :
    ∃ lines, renderLines msgs = .ok lines ∧
      lines.length = msgs.length ∧
      ∀ l ∈ lines, Json.topKeys l = chatTurnFields := by
  induction msgs with
  | nil => exact ⟨[], rfl, rfl, by simp⟩
  | cons hd tl ih =>
    obtain ⟨cm, hcm⟩ := to_chat_message_of_wellShaped hd (h hd (by simp))
    obtain ⟨lines, hl1, hl2, hl3⟩ := ih (fun m hm => h m (by simp [hm]))
    refine ⟨chatMessageJson cm :: lines, ?_, ?_, ?_⟩
    · simp [renderLines, hcm, hl1]
    · simp [hl2]
    · intro l hl
      rcases List.mem_cons.mp hl with rfl | hl
      · exact topKeys_chatMessageJson cm
      · exact hl3 l hl

/-- Characterization of a successful dispatch: exactly one agent was
invoked, selected by the intent string, and content, structured data and
new messages are the ones built from its result. -/
theorem run_intent_ok_cases (gens : Generators) (intent prompt : String)
    (msgs : List ModelMessage) (content : String) (sd : Option StructuredData)
    (nm : List ModelMessage)
    (h : run_intent gens intent prompt msgs = .ok (content, sd, nm)) :
    (∃ r : RunResult TaskList,
      gens.task_agent ("Create a task list based on this request: " ++ prompt) msgs = .ok r ∧
      content = "I've created a structured task list for you with " ++
        toString r.data.total_tasks ++ " tasks." ∧
      sd = some (.tasks r.data) ∧ nm = r.new_messages) ∨
    (∃ r : RunResult Recipe,
      gens.recipe_agent ("Provide a recipe based on this request: " ++ prompt) msgs = .ok r ∧
      content = "Here's a " ++ r.data.difficulty ++ " recipe for " ++ r.data.name ++
        " (serves " ++ toString r.data.servings ++ ")." ∧
      sd = some (.recipe r.data) ∧ nm = r.new_messages) ∨
    (∃ r : RunResult WeatherForecast,
      gens.weather_agent ("Provide a weather forecast based on this request: " ++ prompt ++
        ". Note: This is a demo - provide realistic but fictional weather data.") msgs = .ok r ∧
      content = "Here's the weather forecast for " ++ r.data.location ++ "." ∧
      sd = some (.weather r.data) ∧ nm = r.new_messages) ∨
    (∃ r : RunResult ProductReview,
      gens.review_agent ("Provide a product review based on this request: " ++ prompt) msgs = .ok r ∧
      content = "Here's a structured review for " ++ r.data.product_name ++ " (" ++
        toString r.data.rating ++ "/5 stars)." ∧
      sd = some (.review r.data) ∧ nm = r.new_messages) ∨
    (∃ r : RunResult String,
      gens.general_agent prompt msgs = .ok r ∧
      content = r.data ∧ sd = none ∧ nm = r.new_messages) := by
  unfold run_intent at h
  by_cases c1 : intent = "tasks"
  · rw [if_pos c1] at h
    cases hr : gens.task_agent ("Create a task list based on this request: " ++ prompt) msgs with
    | error e => rw [hr] at h; exact absurd h (by simp [Except.map])
    | ok r =>
      rw [hr] at h
      simp only [Except.map, Except.ok.injEq, Prod.mk.injEq] at h
      obtain ⟨h1, h2, h3⟩ := h
      exact Or.inl ⟨r, rfl, h1.symm, h2.symm, h3.symm⟩
  · rw [if_neg c1] at h
    by_cases c2 : intent = "recipe"
    · rw [if_pos c2] at h
      cases hr : gens.recipe_agent ("Provide a recipe based on this request: " ++ prompt) msgs with
      | error e => rw [hr] at h; exact absurd h (by simp [Except.map])
      | ok r =>
        rw [hr] at h
        simp only [Except.map, Except.ok.injEq, Prod.mk.injEq] at h
        obtain ⟨h1, h2, h3⟩ := h
        exact Or.inr (Or.inl ⟨r, rfl, h1.symm, h2.symm, h3.symm⟩)
    · rw [if_neg c2] at h
      by_cases c3 : intent = "weather"
      · rw [if_pos c3] at h
        cases hr : gens.weather_agent ("Provide a weather forecast based on this request: " ++
            prompt ++ ". Note: This is a demo - provide realistic but fictional weather data.")
            msgs with
        | error e => rw [hr] at h; exact absurd h (by simp [Except.map])
        | ok r =>
          rw [hr] at h
          simp only [Except.map, Except.ok.injEq, Prod.mk.injEq] at h
          obtain ⟨h1, h2, h3⟩ := h
          exact Or.inr (Or.inr (Or.inl ⟨r, rfl, h1.symm, h2.symm, h3.symm⟩))
      · rw [if_neg c3] at h
        by_cases c4 : intent = "review"
        · rw [if_pos c4] at h
          cases hr : gens.review_agent ("Provide a product review based on this request: " ++
              prompt) msgs with
          | error e => rw [hr] at h; exact absurd h (by simp [Except.map])
          | ok r =>
            rw [hr] at h
            simp only [Except.map, Except.ok.injEq, Prod.mk.injEq] at h
            obtain ⟨h1, h2, h3⟩ := h
            exact Or.inr (Or.inr (Or.inr (Or.inl ⟨r, rfl, h1.symm, h2.symm, h3.symm⟩)))
        · rw [if_neg c4] at h
          cases hr : gens.general_agent prompt msgs with
          | error e => rw [hr] at h; exact absurd h (by simp [Except.map])
          | ok r =>
            rw [hr] at h
            simp only [Except.map, Except.ok.injEq, Prod.mk.injEq] at h
            obtain ⟨h1, h2, h3⟩ := h
            exact Or.inr (Or.inr (Or.inr (Or.inr ⟨r, rfl, h1.symm, h2.symm, h3.symm⟩)))

/-! ### Claim theorems -/

/-- C1: classify evaluates the keyword groups in the fixed priority order
tasks, recipe, weather, review over the lowercased prompt and returns the
first group with a matching substring, general when none matches; any
prompt containing a tasks keyword classifies as tasks regardless of other
keywords, and an empty or whitespace-only prompt classifies as general. -/
theorem classifier_priority_and_blank :
    (∀ p, detect_intent p = classify_spec p) ∧
    (∀ p w, w ∈ task_keywords → substrIn w (lower p) = true →
      detect_intent p = "tasks") ∧
    detect_intent "" = "general" ∧
    (∀ p, (∀ c ∈ p.data, c.isWhitespace = true) → detect_intent p = "general") := by
  refine ⟨detect_intent_eq_classify_spec, ?_, by decide, ?_⟩
  · intro p w hw hsub
    have hm : matchesGroup p task_keywords = true :=
      List.any_eq_true.mpr ⟨w, hw, hsub⟩
    simp [detect_intent, hm]
  · intro p hws
    have h1 : matchesGroup p task_keywords = false :=
      matchesGroup_ws_false p hws _ (fun x hx => by simp only [List.mem_append]; tauto)
    have h2 : matchesGroup p recipe_keywords = false :=
      matchesGroup_ws_false p hws _ (fun x hx => by simp only [List.mem_append]; tauto)
    have h3 : matchesGroup p weather_keywords = false :=
      matchesGroup_ws_false p hws _ (fun x hx => by simp only [List.mem_append]; tauto)
    have h4 : matchesGroup p review_keywords = false :=
      matchesGroup_ws_false p hws _ (fun x hx => by simp only [List.mem_append]; tauto)
    simp [detect_intent, h1, h2, h3, h4]

/-- C1 witness: a prompt with a tasks keyword ahead of a recipe keyword
classifies as tasks, and a whitespace-only prompt classifies as general. -/
theorem classifier_priority_and_blank_witness :
    detect_intent "please plan my tasks and cook a meal" = "tasks" ∧
    detect_intent "   " = "general" :=
  ⟨classifier_priority_and_blank.2.1 "please plan my tasks and cook a meal" "task"
      (by decide) (by decide),
   classifier_priority_and_blank.2.2.2 "   " (by decide)⟩

/-- C10: the four keyword sets are exactly the listed ones, the classifier
returns the first group in priority order containing a substring of the
lowercased prompt, and a prompt matching only the review group — for
example one containing opinion or recommend — classifies as review. -/
theorem classifier_keyword_sets :
    task_keywords = ["task", "todo", "plan", "schedule", "organize"] ∧
    recipe_keywords = ["recipe", "cook", "ingredient", "dish", "meal"] ∧
    weather_keywords = ["weather", "forecast", "temperature", "rain", "sunny"] ∧
    review_keywords = ["review", "product", "rating", "recommend", "opinion"] ∧
    (∀ p, detect_intent p = classify_spec p) ∧
    (∀ p, matchesGroup p task_keywords = false →
      matchesGroup p recipe_keywords = false →
      matchesGroup p weather_keywords = false →
      matchesGroup p review_keywords = true →
      detect_intent p = "review") ∧
    (∀ p, matchesGroup p task_keywords = false →
      matchesGroup p recipe_keywords = false →
      matchesGroup p weather_keywords = false →
      matchesGroup p review_keywords = false →
      detect_intent p = "general") := by
  refine ⟨rfl, rfl, rfl, rfl, detect_intent_eq_classify_spec, ?_, ?_⟩ <;>
    { intro p h1 h2 h3 h4
      simp [detect_intent, h1, h2, h3, h4] }

/-- C10 witness: a prompt containing opinion and no higher-priority
keyword classifies as review. -/
theorem classifier_keyword_sets_witness :
    detect_intent "in my opinion" = "review" :=
  classifier_keyword_sets.2.2.2.2.2.1 "in my opinion"
    (by decide) (by decide) (by decide) (by decide)

/-- C2: when the selected generator call fails, the stream emits the user
echo and then a model turn whose content is exactly the error template
over the exception message, with message type text and null structured
data; the exception is not propagated as an HTTP failure and the store is
unchanged. -/
theorem generator_failure_inband (gens : Generators) (t1 t2 t3 prompt : String)
    (db : Db) (msgs : List ModelMessage) (e : String)
    (h1 : get_messages db = .ok msgs)
    (h2 : run_intent gens (detect_intent prompt) prompt msgs = .error e) :
    stream_messages gens t1 t2 t3 prompt db =
      ⟨[⟨"user", t1, prompt, "text", none⟩,
        ⟨"model", t3, "Sorry, I encountered an error: " ++ e, "text", none⟩],
       db, none⟩ :=
  stream_messages_eq_fail gens t1 t2 t3 prompt db msgs e h1 h2

/-- C2 witness: with an environment whose agents all raise, the prompt
Review my blender yields the echo, one in-band error turn, no propagated
failure, and an unchanged store. -/
theorem generator_failure_inband_witness :
    stream_messages gensFail "a" "b" "c" "Review my blender" ⟨[], none⟩ =
      ⟨[⟨"user", "a", "Review my blender", "text", none⟩,
        ⟨"model", "c", "Sorry, I encountered an error: boom", "text", none⟩],
       ⟨[], none⟩, none⟩ :=
  generator_failure_inband gensFail "a" "b" "c" "Review my blender" ⟨[], none⟩ [] "boom"
    rfl (by rw [show detect_intent "Review my blender" = "review" from by decide]; rfl)

/-- C6: appending a parseable exchange to a readable store and then
reading back yields all previously stored turns followed by exactly the
turns of the appended exchange, in insertion order, nothing lost and
nothing duplicated. -/
theorem store_append_roundtrip (db : Db) (b : Blob) (db' : Db)
    (prev appended : List ModelMessage)
    (hprev : get_messages db = .ok prev)
    (hb : parseRecord b = .ok appended)
    (hadd : add_messages db b = .ok db') :
    get_messages db' = .ok (prev ++ appended) := by
  unfold add_messages at hadd
  cases hw : db.write_fails with
  | some e => rw [hw] at hadd; exact absurd hadd (by simp)
  | none =>
    rw [hw] at hadd
    injection hadd with hdb
    subst hdb
    exact readRows_append_single db.rows b prev appended hprev hb

/-- C6 witness: appending a one-turn exchange to a store holding one
exchange reads back both, in order. -/
theorem store_append_roundtrip_witness :
    get_messages ⟨[Blob.ok [sampleUserTurn], Blob.ok [sampleModelTurn]], none⟩ =
      .ok ([sampleUserTurn] ++ [sampleModelTurn]) :=
  store_append_roundtrip ⟨[Blob.ok [sampleUserTurn]], none⟩ (Blob.ok [sampleModelTurn])
    ⟨[Blob.ok [sampleUserTurn], Blob.ok [sampleModelTurn]], none⟩
    [sampleUserTurn] [sampleModelTurn] rfl rfl rfl

/-- C3: the user echo turn is always the first event of the stream —
before intent classification, the history read, and any generator call
can fail or succeed — and every later event is a model turn, so the model
reply is never emitted before the user echo. -/
theorem user_echo_first (gens : Generators) (t1 t2 t3 prompt : String) (db : Db) :
    (stream_messages gens t1 t2 t3 prompt db).events.head? =
      some ⟨"user", t1, prompt, "text", none⟩ ∧
    ∀ ev ∈ (stream_messages gens t1 t2 t3 prompt db).events.drop 1,
      ev.role = "model" := by
  cases hr : get_messages db with
  | error e =>
    rw [stream_messages_eq_raise gens t1 t2 t3 prompt db e hr]
    exact ⟨rfl, by simp⟩
  | ok msgs =>
    cases hi : run_intent gens (detect_intent prompt) prompt msgs with
    | error e =>
      rw [stream_messages_eq_fail gens t1 t2 t3 prompt db msgs e hr hi]
      refine ⟨rfl, ?_⟩
      intro ev hev
      simp [errorTurn] at hev
      subst hev
      rfl
    | ok triple =>
      obtain ⟨content, sd, nm⟩ := triple
      cases hw : db.write_fails with
      | some e =>
        rw [stream_messages_eq_write_fail gens t1 t2 t3 prompt db msgs content sd nm e hr hi hw]
        refine ⟨rfl, ?_⟩
        intro ev hev
        simp [errorTurn] at hev
        rcases hev with rfl | rfl <;> rfl
      | none =>
        rw [stream_messages_eq_ok gens t1 t2 t3 prompt db msgs content sd nm hr hi hw]
        refine ⟨rfl, ?_⟩
        intro ev hev
        simp at hev
        subst hev
        rfl

/-- C4: on a successful dispatch with a functioning store the stream is
exactly the echo followed by the model turn, and the post-state store is
the old rows plus exactly one appended record, the run's new messages;
under the environment assumption that a run's new messages comprise the
prompt turn and the reply turn, that single appended record covers the
whole exchange. -/
theorem success_single_append (gens : Generators) (t1 t2 t3 prompt : String)
    (db : Db) (msgs : List ModelMessage) (content : String)
    (sd : Option StructuredData) (nm : List ModelMessage)
    (h1 : get_messages db = .ok msgs)
    (h2 : run_intent gens (detect_intent prompt) prompt msgs = .ok (content, sd, nm))
    (h3 : db.write_fails = none)
    (hcov : coversExchange nm) :
    stream_messages gens t1 t2 t3 prompt db =
      ⟨[⟨"user", t1, prompt, "text", none⟩,
        ⟨"model", t2, content,
         match sd with | some _ => "structured" | none => "text", sd⟩],
       { db with rows := db.rows ++ [Blob.ok nm] }, none⟩ ∧
    (db.rows ++ [Blob.ok nm]).getLast? = some (Blob.ok nm) ∧
    parseRecord (Blob.ok nm) = .ok nm ∧
    coversExchange nm := by
  refine ⟨stream_messages_eq_ok gens t1 t2 t3 prompt db msgs content sd nm h1 h2 h3,
    ?_, rfl, hcov⟩
  simp

/-- C4 witness: a successful weather dispatch on an empty store emits
echo then model turn and appends one record holding both turns. -/
theorem success_single_append_witness :
    stream_messages gensWeather "a" "b" "c" "What is the weather in Paris" ⟨[], none⟩ =
      ⟨[⟨"user", "a", "What is the weather in Paris", "text", none⟩,
        ⟨"model", "b", "Here's the weather forecast for Paris.",
         "structured", some (.weather parisWeather)⟩],
       ⟨[Blob.ok [sampleUserTurn, sampleModelTurn]], none⟩, none⟩ ∧
    (([] : List Blob) ++ [Blob.ok [sampleUserTurn, sampleModelTurn]]).getLast? =
      some (Blob.ok [sampleUserTurn, sampleModelTurn]) ∧
    parseRecord (Blob.ok [sampleUserTurn, sampleModelTurn]) =
      .ok [sampleUserTurn, sampleModelTurn] ∧
    coversExchange [sampleUserTurn, sampleModelTurn] :=
  success_single_append gensWeather "a" "b" "c" "What is the weather in Paris" ⟨[], none⟩
    [] "Here's the weather forecast for Paris." (some (.weather parisWeather))
    [sampleUserTurn, sampleModelTurn] rfl
    (by rw [show detect_intent "What is the weather in Paris" = "weather" from by decide]; rfl)
    rfl (by constructor <;> decide)

/-- C5 counterexample: with a corrupt stored record the POST request does
fail (the read exception escapes the stream), but only after the user
echo was already emitted — a partial stream of one event — contradicting
the claim that the request fails with no partial stream emitted. -/
theorem store_read_failure_partial_stream_cex :
    (stream_messages gensFail "a" "b" "c" "hello" ⟨[Blob.corrupt "bad"], none⟩).raised =
      some "bad" ∧
    (stream_messages gensFail "a" "b" "c" "hello" ⟨[Blob.corrupt "bad"], none⟩).events =
      [⟨"user", "a", "hello", "text", none⟩] := by
  constructor <;> rfl

/-- C5 amended: a corrupt or unparseable stored record makes the whole
store read fail with no partial recovery, and the read failure fails the
enclosing request — GET /chat/ fails with no lines emitted, and the POST
stream terminates with the propagated exception right after the single
already-emitted user echo, emitting no model turn and appending nothing;
a store write failure, however, does not fail the request: the generator
catches it and emits it as an in-band error turn after the model turn. -/
theorem store_failure_behavior_amended :
    (∀ (db : Db) (e : String), get_messages db = .error e →
      get_chat db = .error e) ∧
    (∀ (gens : Generators) (t1 t2 t3 prompt : String) (db : Db) (e : String),
      get_messages db = .error e →
      stream_messages gens t1 t2 t3 prompt db =
        ⟨[⟨"user", t1, prompt, "text", none⟩], db, some e⟩) ∧
    (∀ (gens : Generators) (t1 t2 t3 prompt : String) (db : Db)
      (msgs : List ModelMessage) (content : String) (sd : Option StructuredData)
      (nm : List ModelMessage) (e : String),
      get_messages db = .ok msgs →
      run_intent gens (detect_intent prompt) prompt msgs = .ok (content, sd, nm) →
      db.write_fails = some e →
      stream_messages gens t1 t2 t3 prompt db =
        ⟨[⟨"user", t1, prompt, "text", none⟩,
          ⟨"model", t2, content,
           match sd with | some _ => "structured" | none => "text", sd⟩,
          errorTurn t3 e], db, none⟩) := by
  refine ⟨?_, ?_, ?_⟩
  · intro db e h
    unfold get_chat
    rw [h]
  · intro gens t1 t2 t3 prompt db e h
    exact stream_messages_eq_raise gens t1 t2 t3 prompt db e h
  · intro gens t1 t2 t3 prompt db msgs content sd nm e h1 h2 h3
    cases sd <;>
      exact stream_messages_eq_write_fail gens t1 t2 t3 prompt db msgs content _ nm e h1 h2 h3

/-- C5 witness: a store holding one corrupt record fails both endpoints
as described, and a store whose write raises turns a successful weather
dispatch into an in-band error turn after the model turn. -/
theorem store_failure_behavior_amended_witness :
    get_chat ⟨[Blob.corrupt "oops"], none⟩ = .error "oops" ∧
    stream_messages gensFail "x" "y" "z" "hi there" ⟨[Blob.corrupt "oops"], none⟩ =
      ⟨[⟨"user", "x", "hi there", "text", none⟩],
       ⟨[Blob.corrupt "oops"], none⟩, some "oops"⟩ ∧
    stream_messages gensWeather "x" "y" "z" "What is the weather in Paris"
        ⟨[], some "disk full"⟩ =
      ⟨[⟨"user", "x", "What is the weather in Paris", "text", none⟩,
        ⟨"model", "y", "Here's the weather forecast for Paris.",
         "structured", some (.weather parisWeather)⟩,
        errorTurn "z" "disk full"], ⟨[], some "disk full"⟩, none⟩ :=
  ⟨store_failure_behavior_amended.1 ⟨[Blob.corrupt "oops"], none⟩ "oops" rfl,
   store_failure_behavior_amended.2.1 gensFail "x" "y" "z" "hi there"
     ⟨[Blob.corrupt "oops"], none⟩ "oops" rfl,
   store_failure_behavior_amended.2.2 gensWeather "x" "y" "z"
     "What is the weather in Paris" ⟨[], some "disk full"⟩ []
     "Here's the weather forecast for Paris." (some (.weather parisWeather))
     [sampleUserTurn, sampleModelTurn] "disk full" rfl
     (by rw [show detect_intent "What is the weather in Paris" = "weather" from by decide]; rfl)
     rfl⟩

/-- C7 counterexample: a persisted conversation holding one model turn
whose first part is not text (for example a tool-call part) makes
GET /chat/ raise instead of returning one line for that turn, so the
claim fails as stated for every persisted conversation. -/
theorem get_chat_unexpected_turn_cex :
    get_chat ⟨[Blob.ok [ModelMessage.response [MsgPart.other] "t"]], none⟩ =
      .error "Unexpected message type for chat app" := rfl

/-- C7 amended: on an empty store GET /chat/ returns zero lines rather
than an error, and for every persisted conversation all of whose turns
are user-prompt-first requests or text-first responses it returns exactly
one JSON line per turn, each an object with exactly the field names role,
timestamp, content, message type and structured data, in that order; a
turn of any other shape fails the whole request. -/
theorem get_chat_lines_amended :
    (∀ db : Db, db.rows = [] → get_chat db = .ok []) ∧
    (∀ (db : Db) (msgs : List ModelMessage), get_messages db = .ok msgs →
      (∀ m ∈ msgs, wellShaped m = true) →
      ∃ lines, get_chat db = .ok lines ∧ lines.length = msgs.length ∧
        ∀ l ∈ lines, Json.topKeys l = chatTurnFields) := by
  constructor
  · intro db h
    unfold get_chat get_messages
    rw [h]
    rfl
  · intro db msgs hread hshape
    obtain ⟨lines, hl1, hl2, hl3⟩ := renderLines_wellShaped msgs hshape
    refine ⟨lines, ?_, hl2, hl3⟩
    unfold get_chat
    rw [hread]
    exact hl1

/-- C7 witness: a store holding one well-shaped two-turn exchange renders
two lines, each with exactly the ChatTurn field names. -/
theorem get_chat_lines_amended_witness :
    ∃ lines, get_chat ⟨[Blob.ok [sampleUserTurn, sampleModelTurn]], none⟩ = .ok lines ∧
      lines.length = [sampleUserTurn, sampleModelTurn].length ∧
      ∀ l ∈ lines, Json.topKeys l = chatTurnFields :=
  get_chat_lines_amended.2 ⟨[Blob.ok [sampleUserTurn, sampleModelTurn]], none⟩
    [sampleUserTurn, sampleModelTurn] rfl (by decide)

/-- C8: for every successful dispatch the emitted model turn — the second
event of the stream — has exactly the per-intent template content built
from the result fields, and for general the raw text reply verbatim. -/
theorem success_content_templates (gens : Generators) (t1 t2 t3 prompt : String)
    (db : Db) (msgs : List ModelMessage)
    (h1 : get_messages db = .ok msgs) :
    (∀ r : RunResult TaskList, detect_intent prompt = "tasks" →
      gens.task_agent ("Create a task list based on this request: " ++ prompt) msgs = .ok r →
      (stream_messages gens t1 t2 t3 prompt db).events[1]? =
        some ⟨"model", t2,
          "I've created a structured task list for you with " ++
            toString r.data.total_tasks ++ " tasks.",
          "structured", some (.tasks r.data)⟩) ∧
    (∀ r : RunResult Recipe, detect_intent prompt = "recipe" →
      gens.recipe_agent ("Provide a recipe based on this request: " ++ prompt) msgs = .ok r →
      (stream_messages gens t1 t2 t3 prompt db).events[1]? =
        some ⟨"model", t2,
          "Here's a " ++ r.data.difficulty ++ " recipe for " ++ r.data.name ++
            " (serves " ++ toString r.data.servings ++ ").",
          "structured", some (.recipe r.data)⟩) ∧
    (∀ r : RunResult WeatherForecast, detect_intent prompt = "weather" →
      gens.weather_agent ("Provide a weather forecast based on this request: " ++ prompt ++
        ". Note: This is a demo - provide realistic but fictional weather data.") msgs = .ok r →
      (stream_messages gens t1 t2 t3 prompt db).events[1]? =
        some ⟨"model", t2,
          "Here's the weather forecast for " ++ r.data.location ++ ".",
          "structured", some (.weather r.data)⟩) ∧
    (∀ r : RunResult ProductReview, detect_intent prompt = "review" →
      gens.review_agent ("Provide a product review based on this request: " ++ prompt) msgs = .ok r →
      (stream_messages gens t1 t2 t3 prompt db).events[1]? =
        some ⟨"model", t2,
          "Here's a structured review for " ++ r.data.product_name ++ " (" ++
            toString r.data.rating ++ "/5 stars).",
          "structured", some (.review r.data)⟩) ∧
    (∀ r : RunResult String, detect_intent prompt = "general" →
      gens.general_agent prompt msgs = .ok r →
      (stream_messages gens t1 t2 t3 prompt db).events[1]? =
        some ⟨"model", t2, r.data, "text", none⟩) := by
  refine ⟨?_, ?_, ?_, ?_, ?_⟩
  · intro r hint hrun
    have h2 : run_intent gens (detect_intent prompt) prompt msgs =
        .ok ("I've created a structured task list for you with " ++
              toString r.data.total_tasks ++ " tasks.",
             some (.tasks r.data), r.new_messages) := by
      rw [hint]
      unfold run_intent
      rw [if_pos rfl, hrun]
      rfl
    cases hw : db.write_fails with
    | some e =>
      rw [stream_messages_eq_write_fail gens t1 t2 t3 prompt db msgs _ _ _ e h1 h2 hw]
      rfl
    | none =>
      rw [stream_messages_eq_ok gens t1 t2 t3 prompt db msgs _ _ _ h1 h2 hw]
      rfl
  · intro r hint hrun
    have h2 : run_intent gens (detect_intent prompt) prompt msgs =
        .ok ("Here's a " ++ r.data.difficulty ++ " recipe for " ++ r.data.name ++
              " (serves " ++ toString r.data.servings ++ ").",
             some (.recipe r.data), r.new_messages) := by
      rw [hint]
      unfold run_intent
      rw [if_neg (by decide), if_pos rfl, hrun]
      rfl
    cases hw : db.write_fails with
    | some e =>
      rw [stream_messages_eq_write_fail gens t1 t2 t3 prompt db msgs _ _ _ e h1 h2 hw]
      rfl
    | none =>
      rw [stream_messages_eq_ok gens t1 t2 t3 prompt db msgs _ _ _ h1 h2 hw]
      rfl
  · intro r hint hrun
    have h2 : run_intent gens (detect_intent prompt) prompt msgs =
        .ok ("Here's the weather forecast for " ++ r.data.location ++ ".",
             some (.weather r.data), r.new_messages) := by
      rw [hint]
      unfold run_intent
      rw [if_neg (by decide), if_neg (by decide), if_pos rfl, hrun]
      rfl
    cases hw : db.write_fails with
    | some e =>
      rw [stream_messages_eq_write_fail gens t1 t2 t3 prompt db msgs _ _ _ e h1 h2 hw]
      rfl
    | none =>
      rw [stream_messages_eq_ok gens t1 t2 t3 prompt db msgs _ _ _ h1 h2 hw]
      rfl
  · intro r hint hrun
    have h2 : run_intent gens (detect_intent prompt) prompt msgs =
        .ok ("Here's a structured review for " ++ r.data.product_name ++ " (" ++
              toString r.data.rating ++ "/5 stars).",
             some (.review r.data), r.new_messages) := by
      rw [hint]
      unfold run_intent
      rw [if_neg (by decide), if_neg (by decide), if_neg (by decide), if_pos rfl, hrun]
      rfl
    cases hw : db.write_fails with
    | some e =>
      rw [stream_messages_eq_write_fail gens t1 t2 t3 prompt db msgs _ _ _ e h1 h2 hw]
      rfl
    | none =>
      rw [stream_messages_eq_ok gens t1 t2 t3 prompt db msgs _ _ _ h1 h2 hw]
      rfl
  · intro r hint hrun
    have h2 : run_intent gens (detect_intent prompt) prompt msgs =
        .ok (r.data, none, r.new_messages) := by
      rw [hint]
      unfold run_intent
      rw [if_neg (by decide), if_neg (by decide), if_neg (by decide), if_neg (by decide), hrun]
      rfl
    cases hw : db.write_fails with
    | some e =>
      rw [stream_messages_eq_write_fail gens t1 t2 t3 prompt db msgs _ _ _ e h1 h2 hw]
      rfl
    | none =>
      rw [stream_messages_eq_ok gens t1 t2 t3 prompt db msgs _ _ _ h1 h2 hw]
      rfl

/-- C8 witness: the weather scenario — the emitted model turn content is
exactly the weather template with the location echoed. -/
theorem success_content_templates_witness :
    (stream_messages gensWeather "a" "b" "c" "What is the weather in Paris"
        ⟨[], none⟩).events[1]? =
      some ⟨"model", "b", "Here's the weather forecast for Paris.",
        "structured", some (.weather parisWeather)⟩ :=
  (success_content_templates gensWeather "a" "b" "c" "What is the weather in Paris"
      ⟨[], none⟩ [] rfl).2.2.1 parisRun (by decide) rfl

/-- C9 counterexample: the empty prompt is accepted and echoed, so POST
/chat/ emits a turn whose content is the empty string, contradicting the
claim that every emitted turn has non-empty content. -/
theorem empty_prompt_empty_content_cex :
    (stream_messages gensFail "a" "b" "c" "" ⟨[], none⟩).events.head? =
      some ⟨"user", "a", "", "text", none⟩ := rfl

/-- C9 amended: every turn emitted by POST /chat/ — for every prompt,
store and generator environment, the empty prompt included — satisfies
the invariant that structured data is present if and only if the message
type is structured; and provided the prompt is non-empty and the general
agent never returns an empty reply, every emitted turn also has
non-empty content (the user echo carries the prompt verbatim and the
general reply is carried verbatim, so those two inputs are the only
sources of empty content). -/
theorem turn_invariant_amended (gens : Generators) (t1 t2 t3 prompt : String)
    (db : Db) :
    (∀ ev ∈ (stream_messages gens t1 t2 t3 prompt db).events,
      ev.message_type = "structured" ↔ ev.structured_data.isSome = true) ∧
    (prompt ≠ "" →
      (∀ (p : String) (ms : List ModelMessage) (r : RunResult String),
        gens.general_agent p ms = .ok r → r.data ≠ "") →
      ∀ ev ∈ (stream_messages gens t1 t2 t3 prompt db).events,
        ev.content ≠ "") := by
  constructor
  · -- the iff invariant holds unconditionally, for every emitted turn
    cases hread : get_messages db with
    | error e =>
      rw [stream_messages_eq_raise gens t1 t2 t3 prompt db e hread]
      intro ev hev
      simp only [List.mem_cons, List.not_mem_nil, or_false] at hev
      subst hev
      simp
    | ok msgs =>
      cases hi : run_intent gens (detect_intent prompt) prompt msgs with
      | error e =>
        rw [stream_messages_eq_fail gens t1 t2 t3 prompt db msgs e hread hi]
        intro ev hev
        simp only [List.mem_cons, List.not_mem_nil, or_false] at hev
        rcases hev with rfl | rfl
        · simp
        · simp [errorTurn]
      | ok triple =>
        obtain ⟨content, sd, nm⟩ := triple
        have hiff : ((match sd with | some _ => "structured" | none => "text") =
            "structured" ↔ sd.isSome = true) := by
          cases sd <;> simp
        cases hw : db.write_fails with
        | some e =>
          rw [stream_messages_eq_write_fail gens t1 t2 t3 prompt db msgs content sd nm e
            hread hi hw]
          intro ev hev
          simp only [List.mem_cons, List.not_mem_nil, or_false] at hev
          rcases hev with rfl | rfl | rfl
          · simp
          · exact hiff
          · simp [errorTurn]
        | none =>
          rw [stream_messages_eq_ok gens t1 t2 t3 prompt db msgs content sd nm hread hi hw]
          intro ev hev
          simp only [List.mem_cons, List.not_mem_nil, or_false] at hev
          rcases hev with rfl | rfl
          · simp
          · exact hiff
  · -- non-empty content, under the two stated provisos
    intro hp hg
    have errContent : ∀ e, (errorTurn t3 e).content ≠ "" := by
      intro e
      show ("Sorry, I encountered an error: " ++ e) ≠ ""
      exact ne_empty_of_data_ne_nil _ (data_ne_nil_append _ _ (by decide))
    cases hread : get_messages db with
    | error e =>
      rw [stream_messages_eq_raise gens t1 t2 t3 prompt db e hread]
      intro ev hev
      simp only [List.mem_cons, List.not_mem_nil, or_false] at hev
      subst hev
      exact hp
    | ok msgs =>
      cases hi : run_intent gens (detect_intent prompt) prompt msgs with
      | error e =>
        rw [stream_messages_eq_fail gens t1 t2 t3 prompt db msgs e hread hi]
        intro ev hev
        simp only [List.mem_cons, List.not_mem_nil, or_false] at hev
        rcases hev with rfl | rfl
        · exact hp
        · exact errContent e
      | ok triple =>
        obtain ⟨content, sd, nm⟩ := triple
        have hcontent : content ≠ "" := by
          rcases run_intent_ok_cases gens (detect_intent prompt) prompt msgs content sd nm
              hi with
            ⟨r, hr, hc, hsd, hnm⟩ | ⟨r, hr, hc, hsd, hnm⟩ | ⟨r, hr, hc, hsd, hnm⟩ |
            ⟨r, hr, hc, hsd, hnm⟩ | ⟨r, hr, hc, hsd, hnm⟩ <;> subst hc
          · refine ne_empty_of_data_ne_nil _ ?_
            repeat apply data_ne_nil_append
            decide
          · refine ne_empty_of_data_ne_nil _ ?_
            repeat apply data_ne_nil_append
            decide
          · refine ne_empty_of_data_ne_nil _ ?_
            repeat apply data_ne_nil_append
            decide
          · refine ne_empty_of_data_ne_nil _ ?_
            repeat apply data_ne_nil_append
            decide
          · exact hg prompt msgs r hr
        cases hw : db.write_fails with
        | some e =>
          rw [stream_messages_eq_write_fail gens t1 t2 t3 prompt db msgs content sd nm e
            hread hi hw]
          intro ev hev
          simp only [List.mem_cons, List.not_mem_nil, or_false] at hev
          rcases hev with rfl | rfl | rfl
          · exact hp
          · exact hcontent
          · exact errContent e
        | none =>
          rw [stream_messages_eq_ok gens t1 t2 t3 prompt db msgs content sd nm hread hi hw]
          intro ev hev
          simp only [List.mem_cons, List.not_mem_nil, or_false] at hev
          rcases hev with rfl | rfl
          · exact hp
          · exact hcontent

/-- C9 witness: the iff invariant holds for the echo of the empty prompt
itself, and the content clause holds for the echo of a non-empty prompt. -/
theorem turn_invariant_amended_witness :
    ((⟨"user", "a", "", "text", none⟩ : ChatMessage).message_type = "structured" ↔
      (⟨"user", "a", "", "text", none⟩ : ChatMessage).structured_data.isSome = true) ∧
    (⟨"user", "a", "hi", "text", none⟩ : ChatMessage).content ≠ "" :=
  ⟨(turn_invariant_amended gensFail "a" "b" "c" "" ⟨[], none⟩).1
     ⟨"user", "a", "", "text", none⟩ (by decide),
   (turn_invariant_amended gensFail "a" "b" "c" "hi" ⟨[], none⟩).2 (by decide)
     (fun _ _ _ h => Except.noConfusion h)
     ⟨"user", "a", "hi", "text", none⟩ (by decide)⟩

end ChatApp
